import Mathlib

/-!
A shallow embedding of the oso Rust foreign-object bridge core
(`src/languages/rust/oso/src/host/class.rs` and
`src/languages/rust/oso/src/host/to_polar.rs`), together with theorems
settling the specification's claims about it.

Modelling conventions:
* Rust's `TypeId` tokens are `Nat`; each erased native type `T` is a
  `RustType` carrying its token and its canonical `std::any::type_name`.
* A type-erased value (`&dyn Any` / `Arc<dyn Any>`) is an `AnyVal`: the
  `TypeId` of its concrete type plus an integer payload standing for the
  underlying data. `any.is::<T>()` is a `TypeId` comparison, exactly as in
  the Rust runtime.
* `HashMap<Symbol, _>` method tables are association lists with at most one
  entry per key; `insert` is last-write-wins, `entry(..).or_insert_with` is
  insert-if-absent, matching `std::collections::HashMap`.
* Closure-valued fields (`instance_check`, `class_check`, `equality_check`,
  constructors) are Lean functions.
-/

namespace Oso

/-- A Rust native type after erasure: its `TypeId` token and its canonical
`std::any::type_name`. -/
structure RustType where
  id : Nat
  canonicalName : String
deriving DecidableEq, Repr

/-- A type-erased native value (`Arc<dyn Any>`): the `TypeId` of its concrete
type plus its data, abstracted to an integer payload. -/
structure AnyVal where
  typeId : Nat
  payload : Int
deriving DecidableEq, Repr

/-- Modelled from the spec: the error taxonomy of `crate::errors::OsoError`
(the `errors.rs` file is not part of the core slice). `UnsupportedOperation`
and `Custom` are the two variants constructed in `class.rs`/`to_polar.rs`;
`DowncastFailed` stands for the user-tagged downcast error produced by
`downcast(..).map_err(|e| e.user())` in `set_equality_check`. -/
inductive OsoError where
  | UnsupportedOperation (operation : String) (type_name : String)
  | Custom (message : String)
  | DowncastFailed (expected : String)
deriving DecidableEq, Repr

/-- Association-list lookup, standing for `HashMap` lookup. -/
def lookupAL {α : Type} (k : String) : List (String × α) → Option α
  | [] => none
  | (k', v) :: rest => if k' = k then some v else lookupAL k rest

/-- `HashMap::insert`: last write wins on key collision. -/
def insertAL {α : Type} (k : String) (v : α) (m : List (String × α)) :
    List (String × α) :=
  (k, v) :: m.filter (fun p => p.1 != k)

/-- `HashMap::entry(k).or_insert_with(f)`: insert only if the key is absent. -/
def insertIfAbsent {α : Type} (k : String) (v : α) (m : List (String × α)) :
    List (String × α) :=
  match lookupAL k m with
  | some _ => m
  | none => (k, v) :: m

/-- Modelled from the spec: `InstanceMethod` (from `class_method.rs`, not in
the core slice) is an opaque `Invocable` capability. A `user` entry stands
for a closure wrapped by `InstanceMethod::new` / `new_iterator`, identified
opaquely; `fromClassMethod` is the synthesized entry built by
`InstanceMethod::from_class_method(name)`. -/
inductive InstanceMethod where
  | user (id : Nat)
  | fromClassMethod (nm : String)
deriving DecidableEq, Repr

/-- Modelled from the spec: `ClassMethod` (from `class_method.rs`) is an
opaque `Invocable` capability, identified opaquely. -/
structure ClassMethod where
  id : Nat
deriving DecidableEq, Repr

/-- The rule engine's value representation (`polar_core::terms::Value`),
restricted to the constructors this core produces. Floats are abstracted:
`FloatRep` stands for the single `f64` representation. -/
structure FloatRep where
  bits : Nat
deriving DecidableEq, Repr

/-- `polar_core::terms::Numeric`: the single integer and single float
representations. -/
inductive Numeric where
  | Integer (i : Int)
  | Float (f : FloatRep)
deriving DecidableEq, Repr

/-- `polar_core::terms::Value`, as produced by the `ToPolar` impls of this
core. -/
inductive Value where
  | Boolean (b : Bool)
  | Number (n : Numeric)
  | Str (s : String)
  | ListV (l : List Value)
  | Dictionary (fields : List (String × Value))
  | ExternalInstance (ctor : Option String) (repr : Option String)
      (instance_id : Nat)

/-- `Term::new_from_ffi` only wraps a `Value`; terms are values here. -/
def Term := Value

/-- Modelled from the spec: a `Constructor` (from `class_method.rs`) is an
opaque `Invocable` capability producing a type-erased native value from
foreign-term arguments, or failing with its own invocation error. Argument
decoding against the host registry is an external collaborator's
responsibility, so the registry handle is not modelled. -/
def Constructor := List Term → Except OsoError AnyVal

/-- `equality_not_supported` from `class.rs`: the default equality check,
which always fails with `UnsupportedOperation` naming the operation
`"equals"` and the type name captured when the check was created. -/
def equality_not_supported (type_name : String) :
    AnyVal → AnyVal → Except OsoError Bool :=
  fun _ _ => Except.error (OsoError.UnsupportedOperation "equals" type_name)

/-- `Class` from `class.rs`, with the `PhantomData` type marker erased (the
marker carries no data; the builder's type parameter `T` is passed to the
builder operations explicitly as a `RustType`). -/
structure Class where
  name : String
  constructor : Option Constructor
  attributes : List (String × InstanceMethod)
  instance_methods : List (String × InstanceMethod)
  class_methods : List (String × ClassMethod)
  type_id : Nat
  instance_check : AnyVal → Bool
  class_check : Nat → Bool
  equality_check : AnyVal → AnyVal → Except OsoError Bool

/-- `Instance` from `class.rs`. The Rust field `instance` is `inst` here
(`instance` is a Lean keyword); the Rust field `class` is `cls`. -/
structure Instance where
  name : String
  inst : AnyVal
  attributes : List (String × InstanceMethod)
  methods : List (String × InstanceMethod)
  cls : Class

/-- `Class::new::<T>()`: name and equality error message capture `T`'s
canonical name, the identity checks capture `T`'s `TypeId`. -/
def Class.new (T : RustType) : Class where
  name := T.canonicalName
  constructor := none
  attributes := []
  instance_methods := []
  class_methods := []
  instance_check := fun a => a.typeId == T.id
  class_check := fun tid => T.id == tid
  equality_check := equality_not_supported T.canonicalName
  type_id := T.id

/-- `Class::set_constructor`. -/
def Class.set_constructor (c : Class) (f : Constructor) : Class :=
  { c with constructor := some f }

/-- `downcast::<T>` over a type-erased value, as used by
`set_equality_check`: succeeds iff the value's concrete `TypeId` is `T`'s,
otherwise surfaces the user-tagged downcast error. -/
def downcastTo (T : RustType) (a : AnyVal) : Except OsoError Int :=
  if a.typeId = T.id then Except.ok a.payload
  else Except.error (OsoError.DowncastFailed T.canonicalName)

/-- `Class::set_equality_check`: wraps a native comparison `f : T → T → bool`
with a downcast step on both arguments. -/
def Class.set_equality_check (T : RustType) (c : Class) (f : Int → Int → Bool) :
    Class :=
  { c with
    equality_check := fun a b => do
      let a' ← downcastTo T a
      let b' ← downcastTo T b
      Except.ok (f a' b') }

/-- `Class::with_equality_check`: shorthand delegating to the native type's
own `PartialEq`, which on the integer payload abstraction is integer
equality. -/
def Class.with_equality_check (T : RustType) (c : Class) : Class :=
  Class.set_equality_check T c (fun a b => a == b)

/-- `Class::add_attribute_getter`. -/
def Class.add_attribute_getter (c : Class) (nm : String) (f : InstanceMethod) :
    Class :=
  { c with attributes := insertAL nm f c.attributes }

/-- `Class::name(n)`: renames the descriptor (only the `name` field). -/
def Class.rename (c : Class) (nm : String) : Class :=
  { c with name := nm }

/-- `Class::add_method`. -/
def Class.add_method (c : Class) (nm : String) (f : InstanceMethod) : Class :=
  { c with instance_methods := insertAL nm f c.instance_methods }

/-- `Class::add_iterator_method`: also inserts into `instance_methods`,
wrapping with `InstanceMethod::new_iterator`. -/
def Class.add_iterator_method (c : Class) (nm : String) (f : InstanceMethod) :
    Class :=
  { c with instance_methods := insertAL nm f c.instance_methods }

/-- `Class::add_class_method`. -/
def Class.add_class_method (c : Class) (nm : String) (f : ClassMethod) :
    Class :=
  { c with class_methods := insertAL nm f c.class_methods }

/-- `Class::erase_type` : copies every field, dropping only the
`PhantomData` marker (already absent from the model). -/
def Class.erase_type (c : Class) : Class :=
  { name := c.name
    constructor := c.constructor
    attributes := c.attributes
    instance_methods := c.instance_methods
    class_methods := c.class_methods
    instance_check := c.instance_check
    class_check := c.class_check
    type_id := c.type_id
    equality_check := c.equality_check }

/-- `Class::build`. -/
def Class.build (c : Class) : Class := c.erase_type

/-- `Class::is_class::<C>()`. -/
def Class.is_class (c : Class) (ctoken : Nat) : Bool :=
  c.class_check ctoken

/-- `Class::is_instance`: applies `instance_check` to the Instance's
type-erased payload. -/
def Class.is_instance (c : Class) (i : Instance) : Bool :=
  c.instance_check i.inst

/-- `Class::equals`: applies `equality_check` to the two payloads. -/
def Class.equals (c : Class) (i other : Instance) : Except OsoError Bool :=
  c.equality_check i.inst other.inst

/-- `Class::cast_to_instance`. -/
def Class.cast_to_instance (c : Class) (v : AnyVal) : Instance :=
  { name := c.name
    inst := v
    attributes := c.attributes
    methods := c.instance_methods
    cls := c }

/-- `Instance::equals`: delegates to the receiver's class's equality
check. -/
def Instance.equals (i other : Instance) : Except OsoError Bool :=
  i.cls.equality_check i.inst other.inst

/-- `Class::init`: invoke the constructor if present, wrapping the produced
value; otherwise fail with the missing-constructor error carrying the
descriptor's name. -/
def Class.init (c : Class) (fields : List Term) : Except OsoError Instance :=
  match c.constructor with
  | some ctor =>
    match ctor fields with
    | Except.ok v =>
      Except.ok
        { name := c.name
          inst := v
          attributes := c.attributes
          methods := c.instance_methods
          cls := c }
    | Except.error e => Except.error e
  | none =>
    Except.error
      (OsoError.Custom
        ("MissingConstructorError: " ++ c.name ++ " has no constructor"))

/-- One builder call on `Class<T>`, as offered by `class.rs`. The builder
exposes no setter for `instance_check` or `class_check`. -/
inductive BuilderOp where
  | setConstructor (f : Constructor)
  | setEqualityCheck (f : Int → Int → Bool)
  | withEqualityCheck
  | addAttributeGetter (nm : String) (f : InstanceMethod)
  | addMethod (nm : String) (f : InstanceMethod)
  | addIteratorMethod (nm : String) (f : InstanceMethod)
  | addClassMethod (nm : String) (f : ClassMethod)
  | rename (nm : String)

/-- Apply one builder call to the builder state (the type parameter `T` is
explicit, as `set_equality_check`'s downcast step depends on it). -/
def applyOp (T : RustType) (c : Class) : BuilderOp → Class
  | BuilderOp.setConstructor f => c.set_constructor f
  | BuilderOp.setEqualityCheck f => Class.set_equality_check T c f
  | BuilderOp.withEqualityCheck => Class.with_equality_check T c
  | BuilderOp.addAttributeGetter nm f => c.add_attribute_getter nm f
  | BuilderOp.addMethod nm f => c.add_method nm f
  | BuilderOp.addIteratorMethod nm f => c.add_iterator_method nm f
  | BuilderOp.addClassMethod nm f => c.add_class_method nm f
  | BuilderOp.rename nm => c.rename nm

/-- A descriptor built from `Class::new::<T>()` by a sequence of builder
calls, then erased with `build()`. -/
def buildClass (T : RustType) (ops : List BuilderOp) : Class :=
  (ops.foldl (applyOp T) (Class.new T)).build

/-- Whether a builder call configures an equality check
(`set_equality_check` or `with_equality_check`). -/
def configuresEquality : BuilderOp → Bool
  | BuilderOp.setEqualityCheck _ => true
  | BuilderOp.withEqualityCheck => true
  | _ => false

/-- Modelled from the spec: the host registry (`Host`, outside the core
slice) as far as this core touches it — the well-known meta-descriptor
returned by `host.type_class()` and the instance cache behind
`host.cache_instance`. -/
structure Host where
  type_class : Class
  instances : List Instance

/-- Modelled from the spec: `host.cache_instance(instance, None)` stores the
instance in the registry's cache and returns a fresh instance id. -/
def Host.cache_instance (h : Host) (i : Instance) : Nat × Host :=
  (h.instances.length, { h with instances := h.instances ++ [i] })

/-- The `TypeId` token of the `Class` type itself: the concrete type wrapped
by `type_class.cast_to_instance(self.clone())`. The class value's own data is
not observed through the `Any` payload, so the payload is abstracted to 0. -/
def classTypeId : Nat := 0

def classAsAny (_c : Class) : AnyVal := { typeId := classTypeId, payload := 0 }

/-- The synthesized-entry registration loop of `impl ToPolar for Class`: for
every class-method name of `c`, `entry(name).or_insert_with(from_class_method
name)` on the meta-descriptor's instance-method table. -/
def registerClassMethods (c : Class)
    (tbl : List (String × InstanceMethod)) : List (String × InstanceMethod) :=
  c.class_methods.foldl
    (fun m kv => insertIfAbsent kv.1 (InstanceMethod.fromClassMethod kv.1) m)
    tbl

/-- `impl ToPolar for Class` (`to_polar.rs` lines 102–122): register the
synthesized class-method entries on the meta-descriptor, cast the class
itself to an instance of the meta-descriptor, cache it, and return an
external-instance term carrying the `type<name>` repr. -/
def classToPolarValue (c : Class) (h : Host) : Value × Host :=
  let tc :=
    { h.type_class with
      instance_methods := registerClassMethods c h.type_class.instance_methods }
  let repr := "type<" ++ c.name ++ ">"
  let inst := tc.cast_to_instance (classAsAny c)
  let idAndHost :=
    Host.cache_instance { h with type_class := tc } inst
  (Value.ExternalInstance none (some repr) idAndHost.1, idAndHost.2)

/-- The fixed-width Rust integer types. -/
inductive IntTy where
  | u8 | i8 | u16 | i16 | u32 | i32 | u64 | i64 | u128 | i128
deriving DecidableEq, Repr

/-- The integer types for which `to_polar.rs` invokes the `int_to_polar!`
macro (lines 34–40): exactly `u8, i8, u16, i16, u32, i32, i64`. -/
def hasIntToPolar : IntTy → Bool
  | IntTy.u8 => true
  | IntTy.i8 => true
  | IntTy.u16 => true
  | IntTy.i16 => true
  | IntTy.u32 => true
  | IntTy.i32 => true
  | IntTy.i64 => true
  | _ => false

/-- The `ToPolar` integer conversions as a partial map over integer types:
where the impl exists it is `Value::Number(Numeric::Integer((*self).into()))`,
and `(*self).into() : i64` is value-preserving on every implemented type;
where no impl exists there is no conversion. -/
def int_to_polar_value (t : IntTy) (v : Int) : Option Value :=
  if hasIntToPolar t then some (Value.Number (Numeric.Integer v)) else none

/-- The floating-point Rust types. -/
inductive FloatTy where
  | f32 | f64
deriving DecidableEq, Repr

/-- The float types for which `to_polar.rs` invokes `float_to_polar!`
(lines 52–53): both widths. -/
def hasFloatToPolar : FloatTy → Bool
  | FloatTy.f32 => true
  | FloatTy.f64 => true

/-- The `ToPolar` float conversions:
`Value::Number(Numeric::Float((*self).into()))`, both widths widening into
the single `f64` representation (`FloatRep`). -/
def float_to_polar_value (t : FloatTy) (v : FloatRep) : Option Value :=
  if hasFloatToPolar t then some (Value.Number (Numeric.Float v)) else none

/-- `impl ToPolar for bool`. -/
def bool_to_polar_value (b : Bool) : Value := Value.Boolean b

/-- `impl ToPolar for String` (and the borrowed-string impls, which produce
the same owned string value). -/
def string_to_polar_value (s : String) : Value := Value.Str s

/-- Rust's `Result<V, E>`. -/
inductive RustResult (V E : Type) where
  | ok (v : V)
  | err (e : E)

/-- The blanket `impl ToPolarResults for C` where `C: ToPolar`: exactly one
successful element, the boxed value itself (`box` is the coercion into
`Box<dyn ToPolar>`). -/
def plain_to_polar_results {C P : Type} (box : C → P) (c : C) :
    List (Except OsoError P) :=
  [Except.ok (box c)]

/-- `impl ToPolarResults for Result<C, E>` (`to_polar.rs` lines 155–164):
`Ok` yields `C`'s own sequence, `Err` yields exactly one failure element
carrying the stringified error. -/
def result_to_polar_results {V E P : Type}
    (vres : V → List (Except OsoError P)) (estr : E → String) :
    RustResult V E → List (Except OsoError P)
  | RustResult.ok v => vres v
  | RustResult.err e => [Except.error (OsoError.Custom (estr e))]

/-- `impl ToPolarResults for Option<C>` (`to_polar.rs` lines 166–173):
`Some` yields `C`'s own sequence, `None` yields the empty sequence. -/
def option_to_polar_results {V P : Type}
    (vres : V → List (Except OsoError P)) :
    Option V → List (Except OsoError P)
  | none => []
  | some v => vres v

/-- `impl ToPolarResults for PolarIter` (`to_polar.rs` lines 175–189):
`flat_map` of each element's own sequence, in iterator order. -/
def polarIter_to_polar_results {I P : Type}
    (eres : I → List (Except OsoError P)) (iter : List I) :
    List (Except OsoError P) :=
  iter.flatMap eres

/-! Concrete registrations used to evaluate the definitions on closed
inputs. -/

def fooTy : RustType := { id := 1, canonicalName := "Foo" }

def barTy : RustType := { id := 2, canonicalName := "Bar" }

def metaTy : RustType := { id := 9, canonicalName := "oso::host::class::Class" }

def fooClass : Class := buildClass fooTy [BuilderOp.addMethod "m" (InstanceMethod.user 0)]

def barClass : Class := buildClass barTy []

def okCtor : Constructor := fun _ => Except.ok { typeId := 1, payload := 7 }

def errCtor : Constructor := fun _ => Except.error (OsoError.Custom "boom")

def fooClassNoCtor : Class := buildClass fooTy []

def fooClassWithCtor : Class := buildClass fooTy [BuilderOp.setConstructor okCtor]

def fooClassWithErrCtor : Class := buildClass fooTy [BuilderOp.setConstructor errCtor]

def classyFoo : Class := buildClass fooTy [BuilderOp.addClassMethod "cm" { id := 5 }]

def host0 : Host :=
  { type_class := (buildClass metaTy []).add_method "pre" (InstanceMethod.user 1)
    instances := [] }

/-! Helper lemmas about the builder and the tables. -/

theorem applyOp_equality_check (T : RustType) (c : Class) (op : BuilderOp)
    (h : configuresEquality op = false) :
    (applyOp T c op).equality_check = c.equality_check := by
  cases op <;> first
    | rfl
    | simp [configuresEquality] at h

theorem foldl_equality_check (T : RustType) (ops : List BuilderOp) (c : Class)
    (h : ∀ op ∈ ops, configuresEquality op = false) :
    (ops.foldl (applyOp T) c).equality_check = c.equality_check := by
  induction ops generalizing c with
  | nil => rfl
  | cons op rest ih =>
    rw [List.foldl_cons, ih _ (fun o ho => h o (List.mem_cons_of_mem _ ho)),
      applyOp_equality_check T c op (h op (List.mem_cons_self _ _))]

theorem buildClass_equality_check (T : RustType) (ops : List BuilderOp)
    (h : ∀ op ∈ ops, configuresEquality op = false) :
    (buildClass T ops).equality_check = equality_not_supported T.canonicalName := by
  have hb : (buildClass T ops).equality_check =
      (ops.foldl (applyOp T) (Class.new T)).equality_check := rfl
  rw [hb, foldl_equality_check T ops (Class.new T) h]
  rfl

theorem applyOp_instance_check (T : RustType) (c : Class) (op : BuilderOp) :
    (applyOp T c op).instance_check = c.instance_check := by
  cases op <;> rfl

theorem buildClass_instance_check (T : RustType) (ops : List BuilderOp) :
    (buildClass T ops).instance_check = fun a => a.typeId == T.id := by
  have key : ∀ (l : List BuilderOp) (c : Class),
      (l.foldl (applyOp T) c).instance_check = c.instance_check := by
    intro l
    induction l with
    | nil => intro c; rfl
    | cons op rest ih =>
      intro c
      rw [List.foldl_cons, ih, applyOp_instance_check]
  have hb : (buildClass T ops).instance_check =
      (ops.foldl (applyOp T) (Class.new T)).instance_check := rfl
  rw [hb, key]
  rfl

theorem lookupAL_insertIfAbsent_mono {α : Type} (j k : String) (v w : α)
    (m : List (String × α)) (h : lookupAL j m = some w) :
    lookupAL j (insertIfAbsent k v m) = some w := by
  unfold insertIfAbsent
  cases hk : lookupAL k m with
  | some u => exact h
  | none =>
    by_cases hjk : k = j
    · subst hjk; rw [hk] at h; exact absurd h (by simp)
    · simpa [lookupAL, hjk] using h

theorem lookupAL_insertIfAbsent_self {α : Type} (k : String) (v : α)
    (m : List (String × α)) :
    (lookupAL k (insertIfAbsent k v m)).isSome := by
  unfold insertIfAbsent
  cases hk : lookupAL k m with
  | some u => simp [hk]
  | none => simp [lookupAL]

theorem regFold_mono (l : List (String × ClassMethod)) (j : String)
    (w : InstanceMethod) (tbl : List (String × InstanceMethod))
    (h : lookupAL j tbl = some w) :
    lookupAL j
      (l.foldl
        (fun m kv => insertIfAbsent kv.1 (InstanceMethod.fromClassMethod kv.1) m)
        tbl) = some w := by
  induction l generalizing tbl with
  | nil => exact h
  | cons kv rest ih =>
    exact ih _ (lookupAL_insertIfAbsent_mono j kv.1 _ w tbl h)

theorem regFold_isSome (l : List (String × ClassMethod)) (j : String)
    (tbl : List (String × InstanceMethod))
    (h : (lookupAL j tbl).isSome) :
    (lookupAL j
      (l.foldl
        (fun m kv => insertIfAbsent kv.1 (InstanceMethod.fromClassMethod kv.1) m)
        tbl)).isSome := by
  obtain ⟨w, hw⟩ := Option.isSome_iff_exists.mp h
  exact Option.isSome_iff_exists.mpr ⟨w, regFold_mono l j w tbl hw⟩

theorem regFold_keys_present (l : List (String × ClassMethod))
    (tbl : List (String × InstanceMethod)) (kv : String × ClassMethod)
    (hmem : kv ∈ l) :
    (lookupAL kv.1
      (l.foldl
        (fun m kv => insertIfAbsent kv.1 (InstanceMethod.fromClassMethod kv.1) m)
        tbl)).isSome := by
  induction l generalizing tbl with
  | nil => cases hmem
  | cons hd rest ih =>
    rw [List.foldl_cons]
    rcases List.mem_cons.mp hmem with heq | hmem'
    · subst heq
      exact regFold_isSome rest kv.1 _ (lookupAL_insertIfAbsent_self kv.1 _ tbl)
    · exact ih _ hmem'

theorem insertIfAbsent_of_present {α : Type} (k : String) (v : α)
    (m : List (String × α)) (h : (lookupAL k m).isSome) :
    insertIfAbsent k v m = m := by
  unfold insertIfAbsent
  obtain ⟨w, hw⟩ := Option.isSome_iff_exists.mp h
  rw [hw]

theorem regFold_id_of_present (l : List (String × ClassMethod))
    (tbl : List (String × InstanceMethod))
    (h : ∀ kv ∈ l, (lookupAL kv.1 tbl).isSome) :
    l.foldl
      (fun m kv => insertIfAbsent kv.1 (InstanceMethod.fromClassMethod kv.1) m)
      tbl = tbl := by
  induction l with
  | nil => rfl
  | cons hd rest ih =>
    rw [List.foldl_cons,
      insertIfAbsent_of_present hd.1 _ tbl (h hd (List.mem_cons_self _ _)),
      ih (fun kv hkv => h kv (List.mem_cons_of_mem _ hkv))]

theorem registerClassMethods_idem (c : Class)
    (tbl : List (String × InstanceMethod)) :
    registerClassMethods c (registerClassMethods c tbl) =
      registerClassMethods c tbl := by
  unfold registerClassMethods
  exact regFold_id_of_present c.class_methods _
    (fun kv hkv => regFold_keys_present c.class_methods tbl kv hkv)

theorem registerClassMethods_mono (c : Class) (j : String) (w : InstanceMethod)
    (tbl : List (String × InstanceMethod)) (h : lookupAL j tbl = some w) :
    lookupAL j (registerClassMethods c tbl) = some w :=
  regFold_mono c.class_methods j w tbl h

/-- C1: for every descriptor built without ever configuring an equality
check, `Class::equals` on any two instances — and `Instance::equals` on any
instance whose class is that descriptor — returns the `UnsupportedOperation`
error naming `"equals"` and the type's canonical name; it is total (never
panics) and never returns a boolean. -/
theorem equals_unsupported_when_no_equality_configured
    (T : RustType) (ops : List BuilderOp)
    (h : ∀ op ∈ ops, configuresEquality op = false)
    (i other j : Instance) (hj : j.cls = buildClass T ops) :
    (buildClass T ops).equals i other =
      Except.error (OsoError.UnsupportedOperation "equals" T.canonicalName) ∧
    j.equals other =
      Except.error (OsoError.UnsupportedOperation "equals" T.canonicalName) := by
  have he := buildClass_equality_check T ops h
  constructor
  · show (buildClass T ops).equality_check i.inst other.inst = _
    rw [he]
    rfl
  · show j.cls.equality_check j.inst other.inst = _
    rw [hj, he]
    rfl

/-- Witness for C1: evaluated on a concrete descriptor (one method added, no
equality check) and concrete instances. -/
theorem equals_unsupported_witness :
    fooClass.equals (fooClass.cast_to_instance { typeId := 1, payload := 3 })
        (fooClass.cast_to_instance { typeId := 1, payload := 4 }) =
      Except.error (OsoError.UnsupportedOperation "equals" "Foo") ∧
    (fooClass.cast_to_instance { typeId := 1, payload := 3 }).equals
        (fooClass.cast_to_instance { typeId := 1, payload := 4 }) =
      Except.error (OsoError.UnsupportedOperation "equals" "Foo") :=
  equals_unsupported_when_no_equality_configured fooTy
    [BuilderOp.addMethod "m" (InstanceMethod.user 0)]
    (by
      intro op hop
      rcases List.mem_singleton.mp hop with rfl
      rfl)
    (fooClass.cast_to_instance { typeId := 1, payload := 3 })
    (fooClass.cast_to_instance { typeId := 1, payload := 4 })
    (fooClass.cast_to_instance { typeId := 1, payload := 3 })
    rfl

/-- C2: `init` on a descriptor with no constructor returns the
missing-constructor error carrying the descriptor's name and constructs no
instance; with a constructor, it invokes it and wraps the produced value in
an `Instance`, propagating the constructor's own invocation error on
failure. -/
theorem init_missing_constructor_spec (c : Class) (fields : List Term) :
    (c.constructor = none →
      c.init fields =
        Except.error (OsoError.Custom
          ("MissingConstructorError: " ++ c.name ++ " has no constructor"))) ∧
    (∀ f v, c.constructor = some f → f fields = Except.ok v →
      c.init fields = Except.ok
        { name := c.name
          inst := v
          attributes := c.attributes
          methods := c.instance_methods
          cls := c }) ∧
    (∀ f e, c.constructor = some f → f fields = Except.error e →
      c.init fields = Except.error e) := by
  refine ⟨?_, ?_, ?_⟩
  · intro hnone
    simp [Class.init, hnone]
  · intro f v hsome hok
    simp [Class.init, hsome, hok]
  · intro f e hsome herr
    simp [Class.init, hsome, herr]

/-- Witness for C2: a constructor-less descriptor fails with the
missing-constructor message; descriptors with succeeding and failing
constructors construct and propagate respectively. -/
theorem init_missing_constructor_witness :
    fooClassNoCtor.init [] =
      Except.error (OsoError.Custom
        ("MissingConstructorError: " ++ "Foo" ++ " has no constructor")) ∧
    fooClassWithCtor.init [] =
      Except.ok
        { name := "Foo"
          inst := { typeId := 1, payload := 7 }
          attributes := []
          methods := []
          cls := fooClassWithCtor } ∧
    fooClassWithErrCtor.init [] = Except.error (OsoError.Custom "boom") :=
  ⟨(init_missing_constructor_spec fooClassNoCtor []).1 rfl,
   (init_missing_constructor_spec fooClassWithCtor []).2.1 okCtor
     { typeId := 1, payload := 7 } rfl rfl,
   (init_missing_constructor_spec fooClassWithErrCtor []).2.2 errCtor
     (OsoError.Custom "boom") rfl rfl⟩

/-- C3: `to_polar_results` on a `Result` yields exactly one failure element,
carrying the stringified error, on `Err`, and exactly the payload's own
sequence on `Ok`; an error never yields zero elements. -/
theorem result_to_polar_results_spec {V E P : Type}
    (vres : V → List (Except OsoError P)) (estr : E → String) :
    (∀ e, result_to_polar_results vres estr (RustResult.err e) =
      [Except.error (OsoError.Custom (estr e))]) ∧
    (∀ e, (result_to_polar_results vres estr (RustResult.err e)).length = 1) ∧
    (∀ v, result_to_polar_results vres estr (RustResult.ok v) = vres v) :=
  ⟨fun _ => rfl, fun _ => rfl, fun _ => rfl⟩

/-- C4: `to_polar_results` on an `Option` yields the empty sequence (not a
failure) on `None`, and exactly the payload's own sequence on `Some`. -/
theorem option_to_polar_results_spec {V P : Type}
    (vres : V → List (Except OsoError P)) :
    option_to_polar_results vres none = [] ∧
    (∀ v, option_to_polar_results vres (some v) = vres v) :=
  ⟨rfl, fun _ => rfl⟩

/-- C5: a `PolarIter`'s sequence is the order-preserving concatenation of
each element's own sequence (one level of flattening); in particular an
iterator of `Option<Int>` elements `[Some 1, None, Some 3]` flattens to
exactly `[1, 3]`. -/
theorem polarIter_flattens {I P : Type}
    (eres : I → List (Except OsoError P)) :
    (polarIter_to_polar_results eres ([] : List I) = [] ∧
     ∀ x xs, polarIter_to_polar_results eres (x :: xs) =
       eres x ++ polarIter_to_polar_results eres xs) ∧
    polarIter_to_polar_results
        (option_to_polar_results (plain_to_polar_results (fun n : Int => n)))
        [some 1, none, some 3] =
      [Except.ok 1, Except.ok 3] := by
  refine ⟨⟨rfl, fun x xs => ?_⟩, rfl⟩
  simp [polarIter_to_polar_results]

/-- C6: inserting twice under the same name via `add_method`,
`add_attribute_getter` or `add_class_method` keeps only the second
registration (last write wins), with no duplicate-detection error. -/
theorem add_same_name_last_write_wins
    (c : Class) (nm : String) (f1 f2 : InstanceMethod) (g1 g2 : ClassMethod) :
    lookupAL nm ((c.add_method nm f1).add_method nm f2).instance_methods =
      some f2 ∧
    lookupAL nm
        ((c.add_attribute_getter nm f1).add_attribute_getter nm f2).attributes =
      some f2 ∧
    lookupAL nm
        ((c.add_class_method nm g1).add_class_method nm g2).class_methods =
      some g2 := by
  refine ⟨?_, ?_, ?_⟩ <;>
    simp [Class.add_method, Class.add_attribute_getter, Class.add_class_method,
      insertAL, lookupAL]

/-- C7: with the (un-overridable) default instance check, a value of the
descriptor's erased type cast to an instance is accepted by `is_instance`,
and a value of an unrelated type is rejected regardless of which descriptor
wrapped it — the check only inspects the type-erased payload. -/
theorem is_instance_of_cast
    (T T' : RustType) (ops ops' : List BuilderOp) (v w : AnyVal)
    (hv : v.typeId = T.id) (hw : w.typeId ≠ T.id) :
    (buildClass T ops).is_instance ((buildClass T ops).cast_to_instance v) =
      true ∧
    (buildClass T ops).is_instance ((buildClass T' ops').cast_to_instance w) =
      false := by
  have h1 := buildClass_instance_check T ops
  constructor
  · show (buildClass T ops).instance_check v = true
    rw [h1]
    simp [hv]
  · show (buildClass T ops).instance_check w = false
    rw [h1]
    simp [hw]

/-- Witness for C7: a `Foo` payload cast under the `Foo` descriptor is an
instance; a `Bar` payload cast under the `Bar` descriptor is not a `Foo`. -/
theorem is_instance_of_cast_witness :
    fooClass.is_instance
        (fooClass.cast_to_instance { typeId := 1, payload := 3 }) = true ∧
    fooClass.is_instance
        (barClass.cast_to_instance { typeId := 2, payload := 4 }) = false :=
  is_instance_of_cast fooTy barTy
    [BuilderOp.addMethod "m" (InstanceMethod.user 0)] []
    { typeId := 1, payload := 3 } { typeId := 2, payload := 4 }
    rfl (by decide)

/-- C8 counterexample: `u64` is a fixed-width integer type, yet
`to_polar.rs` invokes `int_to_polar!` only for `u8, i8, u16, i16, u32, i32,
i64`, so `u64` has no built-in conversion. -/
theorem u64_has_no_int_to_polar :
    hasIntToPolar IntTy.u64 = false ∧ int_to_polar_value IntTy.u64 0 = none :=
  ⟨rfl, rfl⟩

/-- C8 (amended): every integer type covered by an `int_to_polar!`
invocation (`u8, i8, u16, i16, u32, i32, i64` — not `u64`, `u128`, `i128`)
converts to the single integer representation with the value preserved, and
both floating-point widths convert to the single float representation. -/
theorem implemented_numeric_conversions
    (t : IntTy) (v : Int) (ft : FloatTy) (fv : FloatRep)
    (ht : hasIntToPolar t = true) :
    int_to_polar_value t v = some (Value.Number (Numeric.Integer v)) ∧
    float_to_polar_value ft fv = some (Value.Number (Numeric.Float fv)) := by
  constructor
  · simp [int_to_polar_value, ht]
  · cases ft <;> rfl

/-- Witness for C8 (amended): evaluated at `u8` value 42 and `f32`. -/
theorem implemented_numeric_conversions_witness :
    int_to_polar_value IntTy.u8 42 =
      some (Value.Number (Numeric.Integer 42)) ∧
    float_to_polar_value FloatTy.f32 { bits := 77 } =
      some (Value.Number (Numeric.Float { bits := 77 })) :=
  implemented_numeric_conversions IntTy.u8 42 FloatTy.f32 { bits := 77 } rfl

/-- C9: converting a descriptor to a term registers its class-method names
on the meta-descriptor's instance-method table with insert-if-absent:
already-present entries survive unchanged, a second conversion leaves the
table exactly as after the first, and no other field of the meta-descriptor
is mutated. -/
theorem class_to_polar_insert_if_absent (c : Class) (h : Host) :
    (∀ k v, lookupAL k h.type_class.instance_methods = some v →
      lookupAL k (classToPolarValue c h).2.type_class.instance_methods =
        some v) ∧
    (classToPolarValue c
        (classToPolarValue c h).2).2.type_class.instance_methods =
      (classToPolarValue c h).2.type_class.instance_methods ∧
    (classToPolarValue c h).2.type_class.name = h.type_class.name ∧
    (classToPolarValue c h).2.type_class.constructor =
      h.type_class.constructor ∧
    (classToPolarValue c h).2.type_class.attributes =
      h.type_class.attributes ∧
    (classToPolarValue c h).2.type_class.class_methods =
      h.type_class.class_methods ∧
    (classToPolarValue c h).2.type_class.type_id = h.type_class.type_id := by
  refine ⟨?_, ?_, rfl, rfl, rfl, rfl, rfl⟩
  · intro k v hv
    exact registerClassMethods_mono c k v h.type_class.instance_methods hv
  · show registerClassMethods c
        (registerClassMethods c h.type_class.instance_methods) =
      registerClassMethods c h.type_class.instance_methods
    exact registerClassMethods_idem c h.type_class.instance_methods

/-- Witness for C9: on a concrete host whose meta-descriptor already maps
`"pre"`, converting a descriptor with one class method keeps `"pre"` intact,
and a second conversion changes nothing. -/
theorem class_to_polar_insert_if_absent_witness :
    lookupAL "pre"
        (classToPolarValue classyFoo host0).2.type_class.instance_methods =
      some (InstanceMethod.user 1) ∧
    (classToPolarValue classyFoo
        (classToPolarValue classyFoo host0).2).2.type_class.instance_methods =
      (classToPolarValue classyFoo host0).2.type_class.instance_methods :=
  ⟨(class_to_polar_insert_if_absent classyFoo host0).1 "pre"
      (InstanceMethod.user 1)
      (by simp [host0, buildClass, applyOp, Class.build, Class.erase_type,
        Class.new, Class.add_method, insertAL, lookupAL]),
   (class_to_polar_insert_if_absent classyFoo host0).2.1⟩

/-- C10: the type name inside the default `UnsupportedOperation` equality
error is captured by `Class::new`; after `new()` followed by `name(n)` with
no equality check configured, the descriptor's name is `n` but `equals`
still reports the original canonical type name. -/
theorem rename_keeps_canonical_name_in_equality_error
    (T : RustType) (n : String) (i other : Instance) :
    (buildClass T [BuilderOp.rename n]).name = n ∧
    (buildClass T [BuilderOp.rename n]).equals i other =
      Except.error (OsoError.UnsupportedOperation "equals" T.canonicalName) :=
  ⟨rfl, rfl⟩

end Oso
